import Mathlib

/-!
Shallow embedding of the delegation-check tool (main.py) for verification.

The tool queries DNS through the dnspython resolver; every resolver call is
modelled by a `DNSOutcome` value supplied by an environment (`DNSEnv`), so the
pure control flow of the Python functions can be reproduced exactly.  Console
output is modelled as a list of `Line` values, one constructor per print site.
An exception that the Python code does not catch is modelled by the second
component of the result: `some msg` means the run aborted with an uncaught
error before any later statement executed.
-/

set_option autoImplicit false

namespace AwsNsCheck

/-- Result of one `dns.resolver.resolve` call (or of the combined probe body in
`check_ns_resolution`): either an answer with the string forms of the records, or one
of the distinguishable dnspython exception classes the code handles
(`NoAnswer`, `NXDOMAIN`, `LifetimeTimeout` alias `Timeout`, `NoNameservers`),
or any other exception carrying its message. -/
inductive DNSOutcome where
  | records (rs : List String)
  | noAnswer
  | nxdomain
  | lifetimeTimeout
  | noNameservers (msg : String)
  | otherError (msg : String)
  deriving DecidableEq

/-- One console line; constructors are named after the print sites of main.py
and carry the interpolated values that vary.  The last constructor,
`likelyNotVulnerable`, is the one print site that exists only in test.py
(the NS-records-not-AWS verdict); main.py has no such line. -/
inductive Line where
  | checking (subdomain : String)
  | unableToInferParent
  | usingParent (parent : String)
  | timeoutQueryingNS (domain : String)
  | errorQueryingNS (domain : String) (msg : String)
  | noNSRecords (subdomain : String)
  | foundNS (subdomain : String) (records : List String)
  | foundParentNS (parent : String) (records : List String)
  | sameNS
  | differentDelegation (subdomain : String) (parent : String)
  | detectedAWS (servers : List String)
  | resolvesProperly
  | noARecord (subdomain : String)
  | doesNotExistInDNS (subdomain : String)
  | queryTimeout (subdomain : String)
  | noNameserversResponding (subdomain : String)
  | checkingNSResolution
  | nsCanResolve (ns : String) (subdomain : String)
  | nsNoAnswer (ns : String) (subdomain : String)
  | nsNXDomain (subdomain : String) (ns : String)
  | nsTimeout (ns : String) (subdomain : String)
  | nsNoValidNameservers (ns : String)
  | nsError (ns : String) (msg : String)
  | orphanedDelegation
  | nextStep
  | likelyNotVulnerable
  deriving DecidableEq

/-- Python `str.split(sep)` for a one-character separator, on the character
list of the string: keeps empty pieces, and the empty string splits to one
empty piece (`"".split('.') == [""]`). -/
def pySplit (sep : Char) : List Char → List (List Char)
  | [] => [[]]
  | c :: cs =>
    if c = sep then [] :: pySplit sep cs
    else
      match pySplit sep cs with
      | [] => [[c]]
      | p :: ps => (c :: p) :: ps

/-- Python `sep.join(pieces)` for a one-character separator. -/
def pyJoin (sep : Char) : List (List Char) → List Char
  | [] => []
  | [p] => p
  | p :: q :: ps => p ++ sep :: pyJoin sep (q :: ps)

/-- Number of labels of a domain string, exactly as Python counts them:
`len(s.split('.'))`, empty labels included. -/
def labelCount (s : String) : Nat :=
  (pySplit '.' s.data).length

/-- Embeds `infer_parent_domain` of main.py: split on dots; with more than two
parts, drop the first and rejoin; otherwise `None`. -/
def infer_parent_domain (subdomain : String) : Option String :=
  let parts := pySplit '.' subdomain.data
  if parts.length > 2 then some ⟨pyJoin '.' (parts.drop 1)⟩ else none

/-- Python `str.lower()` restricted to the ASCII range, which is all the code
ever compares (DNS hostnames and the shipped patterns). -/
def pyLower (s : String) : String :=
  ⟨s.data.map Char.toLower⟩

/-- Contiguous-substring test on character lists: the needle is a prefix of
some suffix of the haystack. -/
def charsContain (needle : List Char) : List Char → Bool
  | [] => needle.isEmpty
  | c :: t => needle.isPrefixOf (c :: t) || charsContain needle t

/-- Python `needle in hay` on strings: contiguous substring containment. -/
def pyIn (needle hay : String) : Bool :=
  charsContain needle.data hay.data

/-- Python `set(a) == set(b)` on string lists: mutual membership, order- and
duplicate-insensitive but case-sensitive, no other normalization. -/
def pySetEq (a b : List String) : Bool :=
  a.all (fun x => b.contains x) && b.all (fun x => a.contains x)

/-- Embeds the list comprehension of main.py step 4:
`[ns for ns in ns_list if any(pattern in ns.lower() for pattern in patterns)]`.
Note that only the hostname is lowercased, not the pattern. -/
def classify_aws_ns (patterns : List String) (ns_list : List String) : List String :=
  ns_list.filter (fun ns => patterns.any (fun pattern => pyIn pattern (pyLower ns)))

/-- The pattern tuple hardcoded in main.py step 4. -/
def aws_ns_pattern : List String := [".awsdns-", ".amazonaws.com"]

/-- Embeds `get_ns_records`: on an answer return the record strings, on
`NoAnswer` or `NXDOMAIN` silently return the empty list, on `LifetimeTimeout`
print a timeout line, and on any other exception (the generic handler, which
also catches `NoNameservers`) print an error line.  No exception escapes. -/
def get_ns_records (domain : String) (o : DNSOutcome) : List String × List Line :=
  match o with
  | .records rs => (rs, [])
  | .noAnswer => ([], [])
  | .nxdomain => ([], [])
  | .lifetimeTimeout => ([], [.timeoutQueryingNS domain])
  | .noNameservers msg => ([], [.errorQueryingNS domain msg])
  | .otherError msg => ([], [.errorQueryingNS domain msg])

/-- Embeds step 5 of `check_vulnerability`: the direct
A-record resolver call with handlers only for `NoAnswer`,
`NXDOMAIN`, `LifetimeTimeout` and `NoNameservers`.  There is no generic
handler here, so any other exception escapes uncaught (`some msg`). -/
def direct_a_check (subdomain : String) (o : DNSOutcome) : List Line × Option String :=
  match o with
  | .records _ => ([.resolvesProperly], none)
  | .noAnswer => ([.noARecord subdomain], none)
  | .nxdomain => ([.doesNotExistInDNS subdomain], none)
  | .lifetimeTimeout => ([.queryTimeout subdomain], none)
  | .noNameservers _ => ([.noNameserversResponding subdomain], none)
  | .otherError msg => ([], some msg)

/-- Whether a probe outcome means the name server resolved the subdomain
(the `try` body of the loop in `check_ns_resolution` ran to completion). -/
def isResolved (o : DNSOutcome) : Bool :=
  match o with
  | .records _ => true
  | _ => false

/-- The line printed for one name server inside the `check_ns_resolution`
loop, by outcome of the probe body. -/
def probeLine (subdomain ns : String) (o : DNSOutcome) : Line :=
  match o with
  | .records _ => .nsCanResolve ns subdomain
  | .noAnswer => .nsNoAnswer ns subdomain
  | .nxdomain => .nsNXDomain subdomain ns
  | .lifetimeTimeout => .nsTimeout ns subdomain
  | .noNameservers _ => .nsNoValidNameservers ns
  | .otherError msg => .nsError ns msg

/-- Embeds `check_ns_resolution`: one probe per listed name server (the probe
oracle stands for resolving the address of the server and querying the subdomain
through it; every exception of the body is caught), collecting the servers
that resolved and one line per server; if none resolved, print the orphaned
warning and return `False`, else return `True`. -/
def check_ns_resolution (probe : String → DNSOutcome) (subdomain : String)
    (ns_servers : List String) : Bool × List Line :=
  let resolving_ns := ns_servers.filter (fun ns => isResolved (probe ns))
  let body := ns_servers.map (fun ns => probeLine subdomain ns (probe ns))
  if resolving_ns.isEmpty then
    (false, Line.checkingNSResolution :: body ++ [Line.orphanedDelegation])
  else
    (true, Line.checkingNSResolution :: body)

/-- The DNS responses one invocation observes: NS lookups, direct A lookups,
and the combined per-name-server probe body of `check_ns_resolution` (keyed by
subdomain and name server). -/
structure DNSEnv where
  ns : String → DNSOutcome
  a : String → DNSOutcome
  probe : String → String → DNSOutcome

/-- Python truthiness test `not parent_domain` on an optional string. -/
def falsy (o : Option String) : Bool :=
  match o with
  | none => true
  | some s => s.isEmpty

/-- Embeds `check_vulnerability` of main.py.  Returns the printed lines and,
in the second component, the message of an exception that escaped (only
possible in the direct A check, which lacks a generic handler); lines after
the escape point are not printed. -/
def check_vulnerability (env : DNSEnv) (subdomain : String)
    (parent_domain : Option String) : List Line × Option String :=
  let pd := if falsy parent_domain then infer_parent_domain subdomain else parent_domain
  if falsy pd then
    ([.checking subdomain, .unableToInferParent], none)
  else
    let parent := pd.getD ""
    let sub := get_ns_records subdomain (env.ns subdomain)
    let subdomain_ns := sub.1
    if subdomain_ns.isEmpty then
      ([Line.checking subdomain, Line.usingParent parent] ++ sub.2 ++
        [Line.noNSRecords subdomain], none)
    else
      let par := get_ns_records parent (env.ns parent)
      let parent_ns := par.1
      let head := [Line.checking subdomain, Line.usingParent parent] ++ sub.2 ++
        [Line.foundNS subdomain subdomain_ns] ++ par.2 ++
        [Line.foundParentNS parent parent_ns]
      if pySetEq subdomain_ns parent_ns then
        (head ++ [Line.sameNS], none)
      else
        let aws_ns_servers := classify_aws_ns aws_ns_pattern subdomain_ns
        let step5 : List Line × Option String :=
          if aws_ns_servers.isEmpty then ([], none)
          else
            let d := direct_a_check subdomain (env.a subdomain)
            (Line.detectedAWS aws_ns_servers :: d.1, d.2)
        match step5.2 with
        | some msg =>
          (head ++ [Line.differentDelegation subdomain parent] ++ step5.1, some msg)
        | none =>
          let probe := check_ns_resolution (env.probe subdomain) subdomain subdomain_ns
          (head ++ [Line.differentDelegation subdomain parent] ++ step5.1 ++
            probe.2 ++ [Line.nextStep], none)

/-- Modelled from the spec: the comparison the spec ascribes to
`compareDelegation` — build case-insensitive, trailing-dot-normalized sets
from each NS record list and compare them as sets. -/
def specNormalize (s : String) : String :=
  let low := pyLower s
  if low.data.getLast? = some '.' then ⟨low.data.dropLast⟩ else low

/-- Modelled from the spec: set equality of the normalized NS record lists. -/
def specSetEq (a b : List String) : Bool :=
  pySetEq (a.map specNormalize) (b.map specNormalize)

namespace TestPy

/-- Embeds `check_vulnerability` of test.py, the second script of the
repository.  It shares the NS lookup, parent inference, set comparison and
AWS classification with main.py, but it has no per-NS probe: with a
non-empty match it runs only the direct A check followed by the next-step
hint, and with an empty match it ends with the likely-not-vulnerable
verdict. -/
def check_vulnerability (env : DNSEnv) (subdomain : String)
    (parent_domain : Option String) : List Line × Option String :=
  let pd := if falsy parent_domain then infer_parent_domain subdomain else parent_domain
  if falsy pd then
    ([.checking subdomain, .unableToInferParent], none)
  else
    let parent := pd.getD ""
    let sub := get_ns_records subdomain (env.ns subdomain)
    let subdomain_ns := sub.1
    if subdomain_ns.isEmpty then
      ([Line.checking subdomain, Line.usingParent parent] ++ sub.2 ++
        [Line.noNSRecords subdomain], none)
    else
      let par := get_ns_records parent (env.ns parent)
      let parent_ns := par.1
      let head := [Line.checking subdomain, Line.usingParent parent] ++ sub.2 ++
        [Line.foundNS subdomain subdomain_ns] ++ par.2 ++
        [Line.foundParentNS parent parent_ns]
      if pySetEq subdomain_ns parent_ns then
        (head ++ [Line.sameNS], none)
      else
        let aws_ns_servers := classify_aws_ns aws_ns_pattern subdomain_ns
        if aws_ns_servers.isEmpty then
          (head ++ [Line.differentDelegation subdomain parent] ++
            [Line.likelyNotVulnerable], none)
        else
          let d := direct_a_check subdomain (env.a subdomain)
          match d.2 with
          | some msg =>
            (head ++ [Line.differentDelegation subdomain parent] ++
              [Line.detectedAWS aws_ns_servers] ++ d.1, some msg)
          | none =>
            (head ++ [Line.differentDelegation subdomain parent] ++
              [Line.detectedAWS aws_ns_servers] ++ d.1 ++ [Line.nextStep], none)

end TestPy

/-- Environment for the comparison counterexample: the subdomain NS set and
the parent NS set differ only by letter case and a trailing dot. -/
def envC1 : DNSEnv :=
  ⟨fun d => if d = "sub.example.com" then .records ["NS1.example.com."]
    else if d = "example.com" then .records ["ns1.example.com"] else .noAnswer,
   fun _ => .noAnswer, fun _ _ => .noAnswer⟩

/-- Environment for the empty-provider-match run: NS delegation differs but
no name server matches an AWS pattern. -/
def envC3 : DNSEnv :=
  ⟨fun d => if d = "shop.example.org" then .records ["ns1.dnshost.net"]
    else if d = "example.org" then .records ["ns9.parent.org"] else .noAnswer,
   fun _ => .noAnswer, fun _ _ => .noAnswer⟩

/-- Environment where the direct A query raises an unclassified error while
the provider match is non-empty. -/
def envC7 : DNSEnv :=
  ⟨fun d => if d = "app.example.com" then .records ["ns1.awsdns-01.com"]
    else .records ["ns9.parent.com"],
   fun _ => .otherError "socket failure",
   fun _ _ => .records ["192.0.2.1"]⟩

/-- Environment like `envC7` but with a successful direct A resolution. -/
def envC7W : DNSEnv :=
  ⟨fun d => if d = "app.example.com" then .records ["ns1.awsdns-01.com"]
    else .records ["ns9.parent.com"],
   fun _ => .records ["192.0.2.7"],
   fun _ _ => .records ["192.0.2.1"]⟩

/-- Environment where the parent NS lookup finds nothing at all. -/
def envC9 : DNSEnv :=
  ⟨fun d => if d = "api.example.net" then .records ["ns1.somewhere.net"] else .noAnswer,
   fun _ => .noAnswer, fun _ _ => .noAnswer⟩

theorem pySplit_ne_nil (sep : Char) (l : List Char) : pySplit sep l ≠ [] := by
  induction l with
  | nil => simp [pySplit]
  | cons c cs ih =>
    simp only [pySplit]
    split
    · simp
    · split
      · simp
      · simp

theorem sep_not_mem_of_mem_pySplit (sep : Char) (l : List Char) :
    ∀ p ∈ pySplit sep l, sep ∉ p := by
  induction l with
  | nil =>
    intro p hp
    simp only [pySplit, List.mem_singleton] at hp
    subst hp; simp
  | cons c cs ih =>
    intro p hp
    by_cases hc : c = sep
    · have hsplit : pySplit sep (c :: cs) = [] :: pySplit sep cs := by
        simp [pySplit, hc]
      rw [hsplit, List.mem_cons] at hp
      rcases hp with rfl | hp
      · simp
      · exact ih p hp
    · obtain ⟨q, qs, hq⟩ := List.exists_cons_of_ne_nil (pySplit_ne_nil sep cs)
      have hsplit : pySplit sep (c :: cs) = (c :: q) :: qs := by
        simp [pySplit, hc, hq]
      rw [hsplit, List.mem_cons] at hp
      rcases hp with rfl | hp
      · intro hmem
        rcases List.mem_cons.mp hmem with h | hmem
        · exact hc h.symm
        · exact (ih q (by rw [hq]; exact List.mem_cons_self q qs)) hmem
      · exact ih p (by rw [hq]; exact List.mem_cons_of_mem q hp)

theorem pyJoin_pySplit (sep : Char) (l : List Char) :
    pyJoin sep (pySplit sep l) = l := by
  induction l with
  | nil => rfl
  | cons c cs ih =>
    by_cases hc : c = sep
    · subst hc
      obtain ⟨q, qs, hq⟩ := List.exists_cons_of_ne_nil (pySplit_ne_nil c cs)
      simp only [pySplit, if_pos rfl, hq, pyJoin, List.nil_append]
      rw [← hq, ih]
    · obtain ⟨q, qs, hq⟩ := List.exists_cons_of_ne_nil (pySplit_ne_nil sep cs)
      simp only [pySplit, if_neg hc, hq]
      rw [hq] at ih
      cases qs with
      | nil => simp only [pyJoin] at ih ⊢; rw [ih]
      | cons r rs =>
        simp only [pyJoin] at ih ⊢
        rw [List.cons_append, ih]

theorem pySplit_append (sep : Char) (p r : List Char) (hp : sep ∉ p) :
    pySplit sep (p ++ sep :: r) = p :: pySplit sep r := by
  induction p with
  | nil => simp [pySplit]
  | cons a p2 ih =>
    have ha : ¬ a = sep := by
      rintro rfl; exact hp (List.mem_cons_self a p2)
    have hp2 : sep ∉ p2 := fun h => hp (List.mem_cons_of_mem a h)
    simp [pySplit, ha, ih hp2]

theorem pySplit_sep_free (sep : Char) (p : List Char) (hp : sep ∉ p) :
    pySplit sep p = [p] := by
  induction p with
  | nil => rfl
  | cons a p2 ih =>
    have ha : ¬ a = sep := by
      rintro rfl; exact hp (List.mem_cons_self a p2)
    have hp2 : sep ∉ p2 := fun h => hp (List.mem_cons_of_mem a h)
    simp only [pySplit, if_neg ha, ih hp2]

theorem pySplit_pyJoin (sep : Char) :
    ∀ ps : List (List Char), ps ≠ [] → (∀ p ∈ ps, sep ∉ p) →
      pySplit sep (pyJoin sep ps) = ps
  | [], h, _ => absurd rfl h
  | [p], _, hall => by
    simp only [pyJoin]
    exact pySplit_sep_free sep p (hall p (List.mem_singleton.mpr rfl))
  | p :: q :: rest, _, hall => by
    simp only [pyJoin]
    rw [pySplit_append sep p _ (hall p (List.mem_cons_self p _))]
    rw [pySplit_pyJoin sep (q :: rest) (List.cons_ne_nil q rest)
      (fun x hx => hall x (List.mem_cons_of_mem p hx))]

theorem pySplit_concat_sep (sep : Char) (l : List Char) :
    pySplit sep (l ++ [sep]) = pySplit sep l ++ [[]] := by
  induction l with
  | nil => simp [pySplit]
  | cons c cs ih =>
    by_cases hc : c = sep
    · simp [pySplit, hc, ih]
    · obtain ⟨q, qs, hq⟩ := List.exists_cons_of_ne_nil (pySplit_ne_nil sep cs)
      simp [pySplit, hc, ih, hq]

/-- C5: for every domain string with label count at most 2, parent inference
returns none; with label count above 2 it returns the input with exactly the
leftmost label removed, and the result has exactly one fewer label. -/
theorem infer_parent_domain_spec (s : String) :
    (labelCount s ≤ 2 → infer_parent_domain s = none) ∧
    (2 < labelCount s →
      ∃ p : String, infer_parent_domain s = some p ∧
        labelCount p = labelCount s - 1 ∧
        ∃ first : List Char, '.' ∉ first ∧ s.data = first ++ '.' :: p.data) := by
  constructor
  · intro hle
    have hnot : ¬ (pySplit '.' s.data).length > 2 := Nat.not_lt.mpr hle
    simp only [infer_parent_domain, if_neg hnot]
  · intro hgt
    rcases hq : pySplit '.' s.data with _ | ⟨a, rest⟩
    · exact absurd hq (pySplit_ne_nil '.' s.data)
    · have hcond : (pySplit '.' s.data).length > 2 := hgt
      have hlen : 2 < (a :: rest).length := by rw [← hq]; exact hcond
      have hrest : rest ≠ [] := by
        cases rest with
        | nil => simp at hlen
        | cons _ _ => exact List.cons_ne_nil _ _
      have hfree : ∀ p ∈ a :: rest, '.' ∉ p := by
        rw [← hq]; exact sep_not_mem_of_mem_pySplit '.' s.data
      have hrest_free : ∀ p ∈ rest, '.' ∉ p :=
        fun p hp => hfree p (List.mem_cons_of_mem a hp)
      refine ⟨⟨pyJoin '.' rest⟩, ?_, ?_, a, hfree a (List.mem_cons_self a rest), ?_⟩
      · have h1 : 1 < rest.length := by
          have := hlen; simp only [List.length_cons] at this; omega
        simp only [infer_parent_domain, hq]
        simp [h1]
      · show (pySplit '.' (pyJoin '.' rest)).length = (pySplit '.' s.data).length - 1
        rw [pySplit_pyJoin '.' rest hrest hrest_free, hq]
        simp
      · show s.data = a ++ '.' :: pyJoin '.' rest
        have h3 := pyJoin_pySplit '.' s.data
        rw [hq] at h3
        rcases rest with _ | ⟨r, rs⟩
        · exact absurd rfl hrest
        · simpa [pyJoin] using h3.symm

/-- C5 witness: the general theorem applied at the concrete inputs a.b
(two labels, no parent) and a.b.c (three labels, parent b.c with two). -/
theorem infer_parent_domain_spec_witness :
    infer_parent_domain "a.b" = none ∧
    ∃ p : String, infer_parent_domain "a.b.c" = some p ∧
      labelCount p = labelCount "a.b.c" - 1 ∧
      ∃ first : List Char, '.' ∉ first ∧ "a.b.c".data = first ++ '.' :: p.data :=
  ⟨(infer_parent_domain_spec "a.b").1 (by decide),
   (infer_parent_domain_spec "a.b.c").2 (by decide)⟩

/-- C10: label counting splits on the dot and keeps empty labels, so a
trailing dot adds one label; in particular the fully qualified two-label
domain example.com. has three labels and infers the parent com. instead of
none. -/
theorem labelCount_trailing_dot :
    (∀ s : String, labelCount (s ++ ".") = labelCount s + 1) ∧
    labelCount "example.com." = 3 ∧
    infer_parent_domain "example.com." = some "com." := by
  refine ⟨?_, by decide, by decide⟩
  intro s
  show (pySplit '.' (s ++ ".").data).length = (pySplit '.' s.data).length + 1
  have hdata : (s ++ ".").data = s.data ++ ['.'] := rfl
  rw [hdata, pySplit_concat_sep]
  simp

/-- C1 (amended): the delegation comparison of main.py yields the same-NS
verdict exactly when the raw NS record lists are equal as sets — order- and
duplicate-insensitive, but case-sensitive and with no trailing-dot
normalization. -/
theorem pySetEq_iff_raw_set_eq (S P : List String) :
    pySetEq S P = true ↔ ∀ x : String, x ∈ S ↔ x ∈ P := by
  simp only [pySetEq, Bool.and_eq_true, List.all_eq_true, List.elem_iff]
  constructor
  · rintro ⟨h1, h2⟩ x
    exact ⟨fun hx => h1 x hx, fun hx => h2 x hx⟩
  · intro h
    exact ⟨fun x hx => (h x).1 hx, fun x hx => (h x).2 hx⟩

/-- C1 counterexample: two NS lists that are equal after case folding and
trailing-dot removal are compared unequal by the code, so the run reports a
distinct delegation instead of stopping with the same-NS message. -/
theorem compare_not_normalized_counterexample :
    specSetEq ["NS1.example.com."] ["ns1.example.com"] = true ∧
    pySetEq ["NS1.example.com."] ["ns1.example.com"] = false ∧
    Line.differentDelegation "sub.example.com" "example.com" ∈
      (check_vulnerability envC1 "sub.example.com" none).1 ∧
    Line.sameNS ∉ (check_vulnerability envC1 "sub.example.com" none).1 :=
  ⟨by decide, by decide, by decide, by decide⟩

/-- C2: the per-NS resolution check returns true exactly when at least one
listed name server probe resolved the subdomain, and returns false on the
empty name-server list. -/
theorem check_ns_resolution_true_iff (probe : String → DNSOutcome)
    (subdomain : String) (ns_servers : List String) :
    ((check_ns_resolution probe subdomain ns_servers).1 = true ↔
      ∃ ns ∈ ns_servers, isResolved (probe ns) = true) ∧
    (check_ns_resolution probe subdomain []).1 = false := by
  refine ⟨?_, rfl⟩
  unfold check_ns_resolution
  by_cases h : (ns_servers.filter fun ns => isResolved (probe ns)).isEmpty = true
  · rw [if_pos h]
    rw [List.isEmpty_iff] at h
    constructor
    · intro hfalse; exact absurd hfalse (by simp)
    · rintro ⟨ns, hmem, hres⟩
      have hin : ns ∈ ns_servers.filter fun n => isResolved (probe n) :=
        List.mem_filter.mpr ⟨hmem, hres⟩
      rw [h] at hin
      exact absurd hin (List.not_mem_nil ns)
  · rw [if_neg h]
    rw [List.isEmpty_iff] at h
    constructor
    · intro _
      obtain ⟨ns, hns⟩ := List.exists_mem_of_ne_nil _ h
      exact ⟨ns, (List.mem_filter.mp hns).1, (List.mem_filter.mp hns).2⟩
    · intro _; rfl

/-- C4 (amended): the NS lookup never lets an exception escape but conflates
NoAnswer and NXDOMAIN into a silent empty result, while timeout and the
generic handler each print one line; the direct A check maps its four handled
failures and the success case to five pairwise distinct report lines, and any
other error escapes uncaught. -/
theorem query_failure_mapping (d m : String) :
    (get_ns_records d .noAnswer = ([], []) ∧
     get_ns_records d .nxdomain = ([], []) ∧
     get_ns_records d .lifetimeTimeout = ([], [.timeoutQueryingNS d]) ∧
     get_ns_records d (.noNameservers m) = ([], [.errorQueryingNS d m]) ∧
     get_ns_records d (.otherError m) = ([], [.errorQueryingNS d m])) ∧
    (direct_a_check d .noAnswer = ([.noARecord d], none) ∧
     direct_a_check d .nxdomain = ([.doesNotExistInDNS d], none) ∧
     direct_a_check d .lifetimeTimeout = ([.queryTimeout d], none) ∧
     direct_a_check d (.noNameservers m) = ([.noNameserversResponding d], none) ∧
     direct_a_check d (.otherError m) = ([], some m)) ∧
    List.Pairwise (· ≠ ·)
      [Line.resolvesProperly, Line.noARecord d, Line.doesNotExistInDNS d,
       Line.queryTimeout d, Line.noNameserversResponding d] := by
  refine ⟨⟨rfl, rfl, rfl, rfl, rfl⟩, ⟨rfl, rfl, rfl, rfl, rfl⟩, ?_⟩
  simp

/-- C4 counterexample: the no-answer and non-existent outcomes of the NS
lookup produce identical results with zero report lines, and an unclassified
error in the direct A check escapes uncaught. -/
theorem query_failure_conflation_counterexample :
    get_ns_records "a.example.com" .noAnswer = get_ns_records "a.example.com" .nxdomain ∧
    (get_ns_records "a.example.com" .noAnswer).2 = [] ∧
    (direct_a_check "a.example.com" (.otherError "unexpected")).2 = some "unexpected" :=
  ⟨rfl, rfl, rfl⟩

/-- C6 (amended): provider classification always returns a subset of the
input NS list, and a hostname is included exactly when its ASCII-lowercased
form contains at least one configured pattern verbatim as a substring (the
pattern itself is not case-folded). -/
theorem classify_aws_ns_spec (patterns ns_list : List String) (ns : String) :
    (ns ∈ classify_aws_ns patterns ns_list → ns ∈ ns_list) ∧
    (ns ∈ classify_aws_ns patterns ns_list ↔
      ns ∈ ns_list ∧ ∃ pat ∈ patterns, pyIn pat (pyLower ns) = true) := by
  constructor
  · intro h; exact (List.mem_filter.mp h).1
  · unfold classify_aws_ns
    rw [List.mem_filter]
    simp [List.any_eq_true]

/-- C6 witness: the subset implication applied to a concrete classification
containing one AWS-patterned host. -/
theorem classify_aws_ns_spec_witness :
    "ns1.awsdns-01.com" ∈ (["ns1.awsdns-01.com", "ns2.other.net"] : List String) :=
  (classify_aws_ns_spec aws_ns_pattern ["ns1.awsdns-01.com", "ns2.other.net"]
    "ns1.awsdns-01.com").1 (by decide)

/-- C6 counterexample: a hostname containing the pattern AWS case-
insensitively is not matched, because the code lowercases only the hostname
and compares the pattern verbatim. -/
theorem classify_pattern_case_counterexample :
    pyIn (pyLower "AWS") (pyLower "ns.aws.example") = true ∧
    classify_aws_ns ["AWS"] ["ns.aws.example"] = [] :=
  ⟨by decide, by decide⟩

theorem get_ns_records_records (d : String) (rs : List String) :
    get_ns_records d (.records rs) = (rs, []) := rfl

theorem not_mem_get_lines (d : String) (o : DNSOutcome) (L : Line)
    (h1 : ∀ x, L ≠ .timeoutQueryingNS x) (h2 : ∀ x m, L ≠ .errorQueryingNS x m) :
    L ∉ (get_ns_records d o).2 := by
  cases o with
  | records rs => simp [get_ns_records]
  | noAnswer => simp [get_ns_records]
  | nxdomain => simp [get_ns_records]
  | lifetimeTimeout => simpa [get_ns_records] using h1 d
  | noNameservers m => simpa [get_ns_records] using h2 d m
  | otherError m => simpa [get_ns_records] using h2 d m

theorem not_mem_direct_lines (d : String) (o : DNSOutcome) (L : Line)
    (h1 : L ≠ .resolvesProperly) (h2 : L ≠ .noARecord d)
    (h3 : L ≠ .doesNotExistInDNS d) (h4 : L ≠ .queryTimeout d)
    (h5 : L ≠ .noNameserversResponding d) :
    L ∉ (direct_a_check d o).1 := by
  cases o with
  | records rs => simpa [direct_a_check] using h1
  | noAnswer => simpa [direct_a_check] using h2
  | nxdomain => simpa [direct_a_check] using h3
  | lifetimeTimeout => simpa [direct_a_check] using h4
  | noNameservers m => simpa [direct_a_check] using h5
  | otherError m => simp [direct_a_check]

theorem probeLine_ne (s ns : String) (o : DNSOutcome) (L : Line)
    (h1 : ∀ a b, L ≠ .nsCanResolve a b) (h2 : ∀ a b, L ≠ .nsNoAnswer a b)
    (h3 : ∀ a b, L ≠ .nsNXDomain a b) (h4 : ∀ a b, L ≠ .nsTimeout a b)
    (h5 : ∀ a, L ≠ .nsNoValidNameservers a) (h6 : ∀ a m, L ≠ .nsError a m) :
    probeLine s ns o ≠ L := by
  cases o with
  | records rs => exact fun he => h1 ns s he.symm
  | noAnswer => exact fun he => h2 ns s he.symm
  | nxdomain => exact fun he => h3 s ns he.symm
  | lifetimeTimeout => exact fun he => h4 ns s he.symm
  | noNameservers m => exact fun he => h5 ns he.symm
  | otherError m => exact fun he => h6 ns m he.symm

theorem not_mem_probe_lines (p : String → DNSOutcome) (s : String)
    (nss : List String) (L : Line)
    (h0 : L ≠ .checkingNSResolution) (h7 : L ≠ .orphanedDelegation)
    (h1 : ∀ a b, L ≠ .nsCanResolve a b) (h2 : ∀ a b, L ≠ .nsNoAnswer a b)
    (h3 : ∀ a b, L ≠ .nsNXDomain a b) (h4 : ∀ a b, L ≠ .nsTimeout a b)
    (h5 : ∀ a, L ≠ .nsNoValidNameservers a) (h6 : ∀ a m, L ≠ .nsError a m) :
    L ∉ (check_ns_resolution p s nss).2 := by
  unfold check_ns_resolution
  by_cases he : (nss.filter fun ns => isResolved (p ns)).isEmpty = true
  · rw [if_pos he]
    intro hmem
    rcases List.mem_cons.mp hmem with h | hmem
    · exact h0 h
    · rcases List.mem_append.mp hmem with hmem | hmem
      · rcases List.mem_map.mp hmem with ⟨ns, _, heq⟩
        exact probeLine_ne s ns (p ns) L h1 h2 h3 h4 h5 h6 heq
      · exact h7 (List.mem_singleton.mp hmem)
  · rw [if_neg he]
    intro hmem
    rcases List.mem_cons.mp hmem with h | hmem
    · exact h0 h
    · rcases List.mem_map.mp hmem with ⟨ns, _, heq⟩
      exact probeLine_ne s ns (p ns) L h1 h2 h3 h4 h5 h6 heq

theorem checkingNSResolution_mem_probe (p : String → DNSOutcome) (s : String)
    (nss : List String) :
    Line.checkingNSResolution ∈ (check_ns_resolution p s nss).2 := by
  unfold check_ns_resolution
  by_cases he : (nss.filter fun ns => isResolved (p ns)).isEmpty = true
  · rw [if_pos he]
    exact List.mem_cons_self _ _
  · rw [if_neg he]
    exact List.mem_cons_self _ _

theorem direct_a_check_snd_none (s : String) (o : DNSOutcome)
    (h : ∀ m, o ≠ .otherError m) :
    (direct_a_check s o).2 = none := by
  cases o with
  | records rs => rfl
  | noAnswer => rfl
  | nxdomain => rfl
  | lifetimeTimeout => rfl
  | noNameservers m => rfl
  | otherError m => exact absurd rfl (h m)

theorem pySetEq_nil_right (S : List String) (h : S.isEmpty = false) :
    pySetEq S [] = false := by
  cases S with
  | nil => simp at h
  | cons a as => rfl

theorem check_vulnerability_no_aws_eq
    (env : DNSEnv) (subdomain parent : String) (hp : parent.isEmpty = false)
    (S : List String) (hS : env.ns subdomain = .records S) (hne : S.isEmpty = false)
    (hdiff : pySetEq S (get_ns_records parent (env.ns parent)).1 = false)
    (haws : (classify_aws_ns aws_ns_pattern S).isEmpty = true) :
    check_vulnerability env subdomain (some parent) =
      ([Line.checking subdomain, Line.usingParent parent,
        Line.foundNS subdomain S] ++ (get_ns_records parent (env.ns parent)).2 ++
        [Line.foundParentNS parent (get_ns_records parent (env.ns parent)).1,
         Line.differentDelegation subdomain parent] ++
        (check_ns_resolution (env.probe subdomain) subdomain S).2 ++
        [Line.nextStep], none) := by
  have hsub : get_ns_records subdomain (env.ns subdomain) = (S, []) := by
    rw [hS]; exact get_ns_records_records subdomain S
  simp [check_vulnerability, falsy, hp, hsub, hne, hdiff, haws]

theorem check_vulnerability_aws_handled_eq
    (env : DNSEnv) (subdomain parent : String) (hp : parent.isEmpty = false)
    (S : List String) (hS : env.ns subdomain = .records S) (hne : S.isEmpty = false)
    (hdiff : pySetEq S (get_ns_records parent (env.ns parent)).1 = false)
    (haws : (classify_aws_ns aws_ns_pattern S).isEmpty = false)
    (hhandled : (direct_a_check subdomain (env.a subdomain)).2 = none) :
    check_vulnerability env subdomain (some parent) =
      ([Line.checking subdomain, Line.usingParent parent,
        Line.foundNS subdomain S] ++ (get_ns_records parent (env.ns parent)).2 ++
        [Line.foundParentNS parent (get_ns_records parent (env.ns parent)).1,
         Line.differentDelegation subdomain parent,
         Line.detectedAWS (classify_aws_ns aws_ns_pattern S)] ++
        (direct_a_check subdomain (env.a subdomain)).1 ++
        (check_ns_resolution (env.probe subdomain) subdomain S).2 ++
        [Line.nextStep], none) := by
  have hsub : get_ns_records subdomain (env.ns subdomain) = (S, []) := by
    rw [hS]; exact get_ns_records_records subdomain S
  simp [check_vulnerability, falsy, hp, hsub, hne, hdiff, haws, hhandled]

theorem check_vulnerability_aws_escape_eq
    (env : DNSEnv) (subdomain parent : String) (hp : parent.isEmpty = false)
    (S : List String) (hS : env.ns subdomain = .records S) (hne : S.isEmpty = false)
    (hdiff : pySetEq S (get_ns_records parent (env.ns parent)).1 = false)
    (haws : (classify_aws_ns aws_ns_pattern S).isEmpty = false)
    (msg : String) (hesc : (direct_a_check subdomain (env.a subdomain)).2 = some msg) :
    check_vulnerability env subdomain (some parent) =
      ([Line.checking subdomain, Line.usingParent parent,
        Line.foundNS subdomain S] ++ (get_ns_records parent (env.ns parent)).2 ++
        [Line.foundParentNS parent (get_ns_records parent (env.ns parent)).1,
         Line.differentDelegation subdomain parent,
         Line.detectedAWS (classify_aws_ns aws_ns_pattern S)] ++
        (direct_a_check subdomain (env.a subdomain)).1, some msg) := by
  have hsub : get_ns_records subdomain (env.ns subdomain) = (S, []) := by
    rw [hS]; exact get_ns_records_records subdomain S
  simp [check_vulnerability, falsy, hp, hsub, hne, hdiff, haws, hesc]

/-- C3 (amended): when the run reaches provider classification and the match
list is empty, main.py skips the AWS-detection and direct-resolution steps
(no detected-AWS or resolves-properly line can appear and nothing can
escape), but it still performs and reports the per-NS resolution
verification; it does not end with any provider verdict. -/
theorem no_aws_match_probe_still_runs
    (env : DNSEnv) (subdomain parent : String) (hp : parent.isEmpty = false)
    (S : List String) (hS : env.ns subdomain = .records S) (hne : S.isEmpty = false)
    (hdiff : pySetEq S (get_ns_records parent (env.ns parent)).1 = false)
    (haws : (classify_aws_ns aws_ns_pattern S).isEmpty = true) :
    (check_vulnerability env subdomain (some parent)).2 = none ∧
    Line.checkingNSResolution ∈ (check_vulnerability env subdomain (some parent)).1 ∧
    (∀ L : List String,
      Line.detectedAWS L ∉ (check_vulnerability env subdomain (some parent)).1) ∧
    Line.resolvesProperly ∉ (check_vulnerability env subdomain (some parent)).1 ∧
    Line.likelyNotVulnerable ∉ (check_vulnerability env subdomain (some parent)).1 := by
  rw [check_vulnerability_no_aws_eq env subdomain parent hp S hS hne hdiff haws]
  refine ⟨rfl, ?_, ?_, ?_, ?_⟩
  · have h := checkingNSResolution_mem_probe (env.probe subdomain) subdomain S
    simp [h]
  · intro L
    have hg : Line.detectedAWS L ∉ (get_ns_records parent (env.ns parent)).2 :=
      not_mem_get_lines _ _ _ (by simp) (by simp)
    have hpr : Line.detectedAWS L ∉
        (check_ns_resolution (env.probe subdomain) subdomain S).2 :=
      not_mem_probe_lines _ _ _ _ (by simp) (by simp) (by simp) (by simp)
        (by simp) (by simp) (by simp) (by simp)
    simp [hg, hpr]
  · have hg : Line.resolvesProperly ∉ (get_ns_records parent (env.ns parent)).2 :=
      not_mem_get_lines _ _ _ (by simp) (by simp)
    have hpr : Line.resolvesProperly ∉
        (check_ns_resolution (env.probe subdomain) subdomain S).2 :=
      not_mem_probe_lines _ _ _ _ (by simp) (by simp) (by simp) (by simp)
        (by simp) (by simp) (by simp) (by simp)
    simp [hg, hpr]
  · have hg : Line.likelyNotVulnerable ∉ (get_ns_records parent (env.ns parent)).2 :=
      not_mem_get_lines _ _ _ (by simp) (by simp)
    have hpr : Line.likelyNotVulnerable ∉
        (check_ns_resolution (env.probe subdomain) subdomain S).2 :=
      not_mem_probe_lines _ _ _ _ (by simp) (by simp) (by simp) (by simp)
        (by simp) (by simp) (by simp) (by simp)
    simp [hg, hpr]

/-- C3 counterexample: a run whose provider match list is empty still
performs the per-NS resolution verification, contradicting the claim that
the check ends at classification without any resolution verification. -/
theorem no_aws_match_counterexample :
    classify_aws_ns aws_ns_pattern ["ns1.dnshost.net"] = [] ∧
    Line.checkingNSResolution ∈ (check_vulnerability envC3 "shop.example.org" none).1 :=
  ⟨by decide, by decide⟩

/-- C3 witness: the amended theorem applied to the concrete no-match
environment. -/
theorem no_aws_match_probe_still_runs_witness :
    (check_vulnerability envC3 "shop.example.org" (some "example.org")).2 = none ∧
    Line.checkingNSResolution ∈
      (check_vulnerability envC3 "shop.example.org" (some "example.org")).1 ∧
    (∀ L : List String, Line.detectedAWS L ∉
      (check_vulnerability envC3 "shop.example.org" (some "example.org")).1) ∧
    Line.resolvesProperly ∉
      (check_vulnerability envC3 "shop.example.org" (some "example.org")).1 ∧
    Line.likelyNotVulnerable ∉
      (check_vulnerability envC3 "shop.example.org" (some "example.org")).1 :=
  no_aws_match_probe_still_runs envC3 "shop.example.org" "example.org" (by decide)
    ["ns1.dnshost.net"] (by decide) (by decide) (by decide) (by decide)

/-- C7 (amended): with a non-empty provider match, whenever the direct A
query completes with one of the five handled outcomes, the run finishes
normally and both the direct resolution check and the per-NS probe are
performed and reported — a successful direct resolution in particular does
not prevent the probe; only an unclassified direct-check error (see the
counterexample) aborts the run before the probe. -/
theorem direct_and_probe_both_reported
    (env : DNSEnv) (subdomain parent : String) (hp : parent.isEmpty = false)
    (S : List String) (hS : env.ns subdomain = .records S) (hne : S.isEmpty = false)
    (hdiff : pySetEq S (get_ns_records parent (env.ns parent)).1 = false)
    (haws : (classify_aws_ns aws_ns_pattern S).isEmpty = false)
    (hhandled : ∀ m, env.a subdomain ≠ .otherError m) :
    (check_vulnerability env subdomain (some parent)).2 = none ∧
    Line.detectedAWS (classify_aws_ns aws_ns_pattern S) ∈
      (check_vulnerability env subdomain (some parent)).1 ∧
    (∀ L ∈ (direct_a_check subdomain (env.a subdomain)).1,
      L ∈ (check_vulnerability env subdomain (some parent)).1) ∧
    Line.checkingNSResolution ∈ (check_vulnerability env subdomain (some parent)).1 ∧
    Line.nextStep ∈ (check_vulnerability env subdomain (some parent)).1 := by
  have hd : (direct_a_check subdomain (env.a subdomain)).2 = none :=
    direct_a_check_snd_none subdomain (env.a subdomain) hhandled
  rw [check_vulnerability_aws_handled_eq env subdomain parent hp S hS hne hdiff haws hd]
  refine ⟨rfl, by simp, ?_, ?_, by simp⟩
  · intro L hL
    refine List.mem_append.mpr (Or.inl ?_)
    refine List.mem_append.mpr (Or.inl ?_)
    exact List.mem_append.mpr (Or.inr hL)
  · have h := checkingNSResolution_mem_probe (env.probe subdomain) subdomain S
    simp [h]

/-- C7 counterexample: with a non-empty provider match, an unclassified error
in the direct resolution check escapes uncaught and the per-NS probe is never
run or reported, so the two checks are not unconditionally independent. -/
theorem direct_check_escape_skips_probe_counterexample :
    classify_aws_ns aws_ns_pattern ["ns1.awsdns-01.com"] ≠ [] ∧
    (check_vulnerability envC7 "app.example.com" none).2 = some "socket failure" ∧
    Line.checkingNSResolution ∉ (check_vulnerability envC7 "app.example.com" none).1 :=
  ⟨by decide, by decide, by decide⟩

/-- C7 witness: the amended theorem applied to a run whose direct A query
succeeds; the probe is still run and reported. -/
theorem direct_and_probe_both_reported_witness :
    (check_vulnerability envC7W "app.example.com" (some "example.com")).2 = none ∧
    Line.detectedAWS (classify_aws_ns aws_ns_pattern ["ns1.awsdns-01.com"]) ∈
      (check_vulnerability envC7W "app.example.com" (some "example.com")).1 ∧
    (∀ L ∈ (direct_a_check "app.example.com" (envC7W.a "app.example.com")).1,
      L ∈ (check_vulnerability envC7W "app.example.com" (some "example.com")).1) ∧
    Line.checkingNSResolution ∈
      (check_vulnerability envC7W "app.example.com" (some "example.com")).1 ∧
    Line.nextStep ∈
      (check_vulnerability envC7W "app.example.com" (some "example.com")).1 :=
  direct_and_probe_both_reported envC7W "app.example.com" "example.com" (by decide)
    ["ns1.awsdns-01.com"] (by decide) (by decide) (by decide) (by decide)
    (fun m => by simp [envC7W])

/-- C8: the whole check is a pure function of the observed DNS responses —
two runs against pointwise equal DNS states produce identical report lines
and outcome; the source mutates no state shared between runs. -/
theorem check_vulnerability_deterministic (env env2 : DNSEnv) (subdomain : String)
    (parent_domain : Option String)
    (hns : ∀ d, env.ns d = env2.ns d) (ha : ∀ d, env.a d = env2.a d)
    (hprobe : ∀ s n, env.probe s n = env2.probe s n) :
    check_vulnerability env subdomain parent_domain =
      check_vulnerability env2 subdomain parent_domain := by
  obtain ⟨f1, f2, f3⟩ := env
  obtain ⟨g1, g2, g3⟩ := env2
  have e1 : f1 = g1 := funext hns
  have e2 : f2 = g2 := funext ha
  have e3 : f3 = g3 := funext fun s => funext fun n => hprobe s n
  subst e1; subst e2; subst e3
  rfl

/-- C8 witness: two runs against the same concrete DNS state coincide. -/
theorem check_vulnerability_deterministic_witness :
    check_vulnerability ⟨fun _ => .noAnswer, fun _ => .noAnswer, fun _ _ => .noAnswer⟩
        "a.b.c" none =
      check_vulnerability ⟨fun _ => .noAnswer, fun _ => .noAnswer, fun _ _ => .noAnswer⟩
        "a.b.c" none :=
  check_vulnerability_deterministic _ _ "a.b.c" none
    (fun _ => rfl) (fun _ => rfl) (fun _ _ => rfl)

/-- C9: when the subdomain NS lookup returns a non-empty record list and the
parent NS lookup yields an empty list, the comparison yields the distinct
delegation verdict and the check continues — there is no abort for a parent
with no NS records, unlike the abort for a subdomain with none. -/
theorem empty_parent_ns_distinct_continues
    (env : DNSEnv) (subdomain parent : String) (hp : parent.isEmpty = false)
    (S : List String) (hS : env.ns subdomain = .records S) (hne : S.isEmpty = false)
    (hP : (get_ns_records parent (env.ns parent)).1 = []) :
    Line.differentDelegation subdomain parent ∈
      (check_vulnerability env subdomain (some parent)).1 ∧
    Line.sameNS ∉ (check_vulnerability env subdomain (some parent)).1 ∧
    Line.noNSRecords subdomain ∉ (check_vulnerability env subdomain (some parent)).1 := by
  have hdiff : pySetEq S (get_ns_records parent (env.ns parent)).1 = false := by
    rw [hP]; exact pySetEq_nil_right S hne
  have hg1 : Line.sameNS ∉ (get_ns_records parent (env.ns parent)).2 :=
    not_mem_get_lines _ _ _ (by simp) (by simp)
  have hg2 : Line.noNSRecords subdomain ∉ (get_ns_records parent (env.ns parent)).2 :=
    not_mem_get_lines _ _ _ (by simp) (by simp)
  have hpr1 : Line.sameNS ∉ (check_ns_resolution (env.probe subdomain) subdomain S).2 :=
    not_mem_probe_lines _ _ _ _ (by simp) (by simp) (by simp) (by simp)
      (by simp) (by simp) (by simp) (by simp)
  have hpr2 : Line.noNSRecords subdomain ∉
      (check_ns_resolution (env.probe subdomain) subdomain S).2 :=
    not_mem_probe_lines _ _ _ _ (by simp) (by simp) (by simp) (by simp)
      (by simp) (by simp) (by simp) (by simp)
  have hdc1 : Line.sameNS ∉ (direct_a_check subdomain (env.a subdomain)).1 :=
    not_mem_direct_lines _ _ _ (by simp) (by simp) (by simp) (by simp) (by simp)
  have hdc2 : Line.noNSRecords subdomain ∉ (direct_a_check subdomain (env.a subdomain)).1 :=
    not_mem_direct_lines _ _ _ (by simp) (by simp) (by simp) (by simp) (by simp)
  by_cases haws : (classify_aws_ns aws_ns_pattern S).isEmpty = true
  · rw [check_vulnerability_no_aws_eq env subdomain parent hp S hS hne hdiff haws]
    exact ⟨by simp, by simp [hg1, hpr1], by simp [hg2, hpr2]⟩
  · have haws2 : (classify_aws_ns aws_ns_pattern S).isEmpty = false := by
      cases h : (classify_aws_ns aws_ns_pattern S).isEmpty
      · rfl
      · exact absurd h haws
    rcases hd : (direct_a_check subdomain (env.a subdomain)).2 with _ | msg
    · rw [check_vulnerability_aws_handled_eq env subdomain parent hp S hS hne hdiff
        haws2 hd]
      exact ⟨by simp, by simp [hg1, hpr1, hdc1], by simp [hg2, hpr2, hdc2]⟩
    · rw [check_vulnerability_aws_escape_eq env subdomain parent hp S hS hne hdiff
        haws2 msg hd]
      exact ⟨by simp, by simp [hg1, hdc1], by simp [hg2, hdc2]⟩

/-- C9 witness: the theorem applied to a run whose parent has no NS records. -/
theorem empty_parent_ns_distinct_continues_witness :
    Line.differentDelegation "api.example.net" "example.net" ∈
      (check_vulnerability envC9 "api.example.net" (some "example.net")).1 ∧
    Line.sameNS ∉ (check_vulnerability envC9 "api.example.net" (some "example.net")).1 ∧
    Line.noNSRecords "api.example.net" ∉
      (check_vulnerability envC9 "api.example.net" (some "example.net")).1 :=
  empty_parent_ns_distinct_continues envC9 "api.example.net" "example.net" (by decide)
    ["ns1.somewhere.net"] (by decide) (by decide) (by decide)

/-- In test.py, by contrast, an empty provider match ends the run with the
likely-not-vulnerable verdict and no per-NS resolution check exists at all:
test.py is the variant whose classification branch matches the spec text,
while main.py (above) runs the probe regardless. -/
theorem TestPy.no_aws_match_terminal
    (env : DNSEnv) (subdomain parent : String) (hp : parent.isEmpty = false)
    (S : List String) (hS : env.ns subdomain = .records S) (hne : S.isEmpty = false)
    (hdiff : pySetEq S (get_ns_records parent (env.ns parent)).1 = false)
    (haws : (classify_aws_ns aws_ns_pattern S).isEmpty = true) :
    TestPy.check_vulnerability env subdomain (some parent) =
      ([Line.checking subdomain, Line.usingParent parent,
        Line.foundNS subdomain S] ++ (get_ns_records parent (env.ns parent)).2 ++
        [Line.foundParentNS parent (get_ns_records parent (env.ns parent)).1,
         Line.differentDelegation subdomain parent, Line.likelyNotVulnerable],
       none) := by
  have hsub : get_ns_records subdomain (env.ns subdomain) = (S, []) := by
    rw [hS]; exact get_ns_records_records subdomain S
  simp [TestPy.check_vulnerability, falsy, hp, hsub, hne, hdiff, haws]

end AwsNsCheck
